import Mathlib

/-
Verification of the posture scoring engine of the ai-posture-analysis
repository (Kendall lateral-view assessment).

The authoritative scoring code is the `KendallAnalyzer` class; the repository
also ships a second historical revision of the same class inside
`UIController.js` with different constants and a different spinal-alignment
formula, embedded below in namespace `UIC`.

JavaScript numbers are modelled by the real numbers `ℝ`; `Math.atan2`,
`Math.abs` and `Math.max` by `atan2` (defined below), `abs` and `max`.
Accessing `landmarks[i]` on a too-short array yields `undefined` in JS and any
subsequent `.x` access throws; this fallibility is modelled by `Option`:
a `none` result of an evaluator models the thrown error.  The `toFixed`
formatting applied to the `value`/`angle` report fields is display-only and
the numeric quantity is kept instead.
-/

namespace Kendall

/-- Landmark as produced by the pose-detection collaborator:
`{x, y, z, visibility}` with normalized coordinates. -/
structure Landmark where
  x : ℝ
  y : ℝ
  z : ℝ
  visibility : ℝ

/-- Result object returned by each of the six criterion evaluators:
`{name, score, value, angle, description}` (value and angle kept numeric). -/
structure CriterionResult where
  name : String
  score : ℝ
  value : ℝ
  angle : ℝ
  description : String

/-- Result object of `analyzeLateralView`: `{totalScore, details}`. -/
structure PostureReport where
  totalScore : ℝ
  details : List CriterionResult

/-- Landmark index table `PoseDetector.LANDMARKS` (MediaPipe layout):
LEFT_EAR. -/
def LEFT_EAR : Nat := 7

/-- Landmark index LEFT_SHOULDER. -/
def LEFT_SHOULDER : Nat := 11

/-- Landmark index LEFT_HIP. -/
def LEFT_HIP : Nat := 23

/-- Landmark index LEFT_KNEE. -/
def LEFT_KNEE : Nat := 25

/-- Landmark index LEFT_ANKLE. -/
def LEFT_ANKLE : Nat := 27

/-- JavaScript `Math.atan2(y, x)` over the reals (signed zeros aside):
quadrant-aware arctangent, with `atan2 0 0 = 0`. -/
noncomputable def atan2 (y x : ℝ) : ℝ :=
  if 0 < x then Real.arctan (y / x)
  else if x < 0 then
    (if 0 ≤ y then Real.arctan (y / x) + Real.pi
     else Real.arctan (y / x) - Real.pi)
  else
    (if 0 < y then Real.pi / 2
     else if y < 0 then -(Real.pi / 2)
     else 0)

/-- The scoring curve shared by all evaluators of `KendallAnalyzer`:
`let score = 100; if (m > T) score = Math.max(0, 100 - (m - T) * K)`. -/
noncomputable def curveScore (T K m : ℝ) : ℝ :=
  if T < m then max 0 (100 - (m - T) * K) else 100

/-- Description strings of `getHeadPostureDescription` (score branches
`≥90 / ≥70 / ≥50 / else`). -/
noncomputable def getHeadPostureDescription (score : ℝ) : String :=
  if 90 ≤ score then "✅ 優秀：頭部が理想的な位置にあります"
  else if 70 ≤ score then "⚠️ 良好：軽度の前方偏位が見られます"
  else if 50 ≤ score then "⚠️ 注意：中等度の頭部前方位です"
  else "❌ 要改善：顕著な頭部前方位が見られます"

/-- Description strings of `getShoulderDescription`. -/
noncomputable def getShoulderDescription (score : ℝ) : String :=
  if 90 ≤ score then "✅ 優秀：肩が理想的な位置にあります"
  else if 70 ≤ score then "⚠️ 良好：軽度の位置偏位が見られます"
  else if 50 ≤ score then "⚠️ 注意：中等度の肩の位置異常です"
  else "❌ 要改善：顕著な肩の位置異常が見られます"

/-- Description strings of `getSpinalDescription`. -/
noncomputable def getSpinalDescription (score : ℝ) : String :=
  if 90 ≤ score then "✅ 優秀：脊柱アライメントが理想的です"
  else if 70 ≤ score then "⚠️ 良好：軽度のアライメント偏位があります"
  else if 50 ≤ score then "⚠️ 注意：中等度の脊柱アライメント異常です"
  else "❌ 要改善：顕著な脊柱アライメント異常が見られます"

/-- Description strings of `getPelvicDescription`. -/
noncomputable def getPelvicDescription (score : ℝ) : String :=
  if 90 ≤ score then "✅ 優秀：骨盤が中間位にあります"
  else if 70 ≤ score then "⚠️ 良好：軽度の骨盤傾斜があります"
  else if 50 ≤ score then "⚠️ 注意：中等度の骨盤傾斜です"
  else "❌ 要改善：顕著な骨盤傾斜が見られます"

/-- Description strings of `getKneeDescription`. -/
noncomputable def getKneeDescription (score : ℝ) : String :=
  if 90 ≤ score then "✅ 優秀：膝が理想的な位置にあります"
  else if 70 ≤ score then "⚠️ 良好：軽度の膝の位置偏位があります"
  else if 50 ≤ score then "⚠️ 注意：中等度の膝の位置異常です"
  else "❌ 要改善：顕著な膝の位置異常が見られます"

/-- Description strings of `getAnkleDescription`. -/
noncomputable def getAnkleDescription (score : ℝ) : String :=
  if 90 ≤ score then "✅ 優秀：足首が理想的な位置にあります"
  else if 70 ≤ score then "⚠️ 良好：軽度の足首アライメント偏位があります"
  else if 50 ≤ score then "⚠️ 注意：中等度の足首アライメント異常です"
  else "❌ 要改善：顕著な足首アライメント異常が見られます"

/-- Qualitative tier of a score, as named in the spec
(Excellent/Good/Caution/Poor). -/
inductive Tier where
  | Excellent
  | Good
  | Caution
  | Poor
deriving DecidableEq

/-- Score-to-tier classification: the branch structure (`≥90 / ≥70 / ≥50 /
else`) shared verbatim by all six description functions of the source. -/
noncomputable def tierOf (score : ℝ) : Tier :=
  if 90 ≤ score then Tier.Excellent
  else if 70 ≤ score then Tier.Good
  else if 50 ≤ score then Tier.Caution
  else Tier.Poor

/-- The four head-posture description strings indexed by tier. -/
def headDesc : Tier → String
  | Tier.Excellent => "✅ 優秀：頭部が理想的な位置にあります"
  | Tier.Good => "⚠️ 良好：軽度の前方偏位が見られます"
  | Tier.Caution => "⚠️ 注意：中等度の頭部前方位です"
  | Tier.Poor => "❌ 要改善：顕著な頭部前方位が見られます"

/-- The four shoulder-position description strings indexed by tier. -/
def shoulderDesc : Tier → String
  | Tier.Excellent => "✅ 優秀：肩が理想的な位置にあります"
  | Tier.Good => "⚠️ 良好：軽度の位置偏位が見られます"
  | Tier.Caution => "⚠️ 注意：中等度の肩の位置異常です"
  | Tier.Poor => "❌ 要改善：顕著な肩の位置異常が見られます"

/-- The four spinal-alignment description strings indexed by tier. -/
def spinalDesc : Tier → String
  | Tier.Excellent => "✅ 優秀：脊柱アライメントが理想的です"
  | Tier.Good => "⚠️ 良好：軽度のアライメント偏位があります"
  | Tier.Caution => "⚠️ 注意：中等度の脊柱アライメント異常です"
  | Tier.Poor => "❌ 要改善：顕著な脊柱アライメント異常が見られます"

/-- The four pelvic-tilt description strings indexed by tier. -/
def pelvicDesc : Tier → String
  | Tier.Excellent => "✅ 優秀：骨盤が中間位にあります"
  | Tier.Good => "⚠️ 良好：軽度の骨盤傾斜があります"
  | Tier.Caution => "⚠️ 注意：中等度の骨盤傾斜です"
  | Tier.Poor => "❌ 要改善：顕著な骨盤傾斜が見られます"

/-- The four knee-position description strings indexed by tier. -/
def kneeDesc : Tier → String
  | Tier.Excellent => "✅ 優秀：膝が理想的な位置にあります"
  | Tier.Good => "⚠️ 良好：軽度の膝の位置偏位があります"
  | Tier.Caution => "⚠️ 注意：中等度の膝の位置異常です"
  | Tier.Poor => "❌ 要改善：顕著な膝の位置異常が見られます"

/-- The four ankle-alignment description strings indexed by tier. -/
def ankleDesc : Tier → String
  | Tier.Excellent => "✅ 優秀：足首が理想的な位置にあります"
  | Tier.Good => "⚠️ 良好：軽度の足首アライメント偏位があります"
  | Tier.Caution => "⚠️ 注意：中等度の足首アライメント異常です"
  | Tier.Poor => "❌ 要改善：顕著な足首アライメント異常が見られます"

/-- Criterion 1, `KendallAnalyzer.evaluateHeadPosture`: horizontal
ear-shoulder distance, threshold 0.03, slope 2000. -/
noncomputable def evaluateHeadPosture (landmarks : List Landmark) :
    Option CriterionResult := do
  let ear ← landmarks[LEFT_EAR]?
  let shoulder ← landmarks[LEFT_SHOULDER]?
  let horizontalDistance := |ear.x - shoulder.x|
  let score := curveScore 0.03 2000 horizontalDistance
  let angle := atan2 (ear.y - shoulder.y) (ear.x - shoulder.x) * (180 / Real.pi)
  pure { name := "頭部前方位", score := score, value := horizontalDistance,
         angle := angle, description := getHeadPostureDescription score }

/-- Criterion 2, `KendallAnalyzer.evaluateShoulderPosition`: deviation of the
shoulder from the ear-hip midpoint, threshold 0.02, slope 2500. -/
noncomputable def evaluateShoulderPosition (landmarks : List Landmark) :
    Option CriterionResult := do
  let ear ← landmarks[LEFT_EAR]?
  let shoulder ← landmarks[LEFT_SHOULDER]?
  let hip ← landmarks[LEFT_HIP]?
  let idealShoulderX := (ear.x + hip.x) / 2
  let deviation := |shoulder.x - idealShoulderX|
  let score := curveScore 0.02 2500 deviation
  let angle := atan2 (shoulder.y - hip.y) (shoulder.x - hip.x) * (180 / Real.pi)
  pure { name := "肩の位置", score := score, value := deviation,
         angle := angle, description := getShoulderDescription score }

/-- Criterion 3, `KendallAnalyzer.evaluateSpinalAlignment`: directional
shoulder-hip angle via `atan2(dy,dx)`, `angleDifference = |angle - 90|`,
tolerance 5, slope 3. -/
noncomputable def evaluateSpinalAlignment (landmarks : List Landmark) :
    Option CriterionResult := do
  let shoulder ← landmarks[LEFT_SHOULDER]?
  let hip ← landmarks[LEFT_HIP]?
  let dx := shoulder.x - hip.x
  let dy := shoulder.y - hip.y
  let angle := atan2 dy dx * (180 / Real.pi)
  let angleDifference := |angle - 90|
  let score := curveScore 5 3 angleDifference
  pure { name := "脊柱アライメント", score := score, value := angleDifference,
         angle := angle, description := getSpinalDescription score }

/-- Criterion 4, `KendallAnalyzer.evaluatePelvicTilt`: directional hip-knee
angle via `atan2(dy,dx)`, `angleDifference = |angle - 90|`, tolerance 5,
slope 3. -/
noncomputable def evaluatePelvicTilt (landmarks : List Landmark) :
    Option CriterionResult := do
  let hip ← landmarks[LEFT_HIP]?
  let knee ← landmarks[LEFT_KNEE]?
  let dx := knee.x - hip.x
  let dy := knee.y - hip.y
  let angle := atan2 dy dx * (180 / Real.pi)
  let angleDifference := |angle - 90|
  let score := curveScore 5 3 angleDifference
  pure { name := "骨盤傾斜", score := score, value := angleDifference,
         angle := angle, description := getPelvicDescription score }

/-- Criterion 5, `KendallAnalyzer.evaluateKneePosition`: horizontal knee-hip
distance, threshold 0.03, slope 2000. -/
noncomputable def evaluateKneePosition (landmarks : List Landmark) :
    Option CriterionResult := do
  let hip ← landmarks[LEFT_HIP]?
  let knee ← landmarks[LEFT_KNEE]?
  let horizontalDistance := |knee.x - hip.x|
  let score := curveScore 0.03 2000 horizontalDistance
  let angle := atan2 (knee.y - hip.y) (knee.x - hip.x) * (180 / Real.pi)
  pure { name := "膝の位置", score := score, value := horizontalDistance,
         angle := angle, description := getKneeDescription score }

/-- Criterion 6, `KendallAnalyzer.evaluateAnkleAlignment`: horizontal
ankle-knee distance, threshold 0.03, slope 2000. -/
noncomputable def evaluateAnkleAlignment (landmarks : List Landmark) :
    Option CriterionResult := do
  let knee ← landmarks[LEFT_KNEE]?
  let ankle ← landmarks[LEFT_ANKLE]?
  let horizontalDistance := |ankle.x - knee.x|
  let score := curveScore 0.03 2000 horizontalDistance
  let angle := atan2 (ankle.y - knee.y) (ankle.x - knee.x) * (180 / Real.pi)
  pure { name := "足首アライメント", score := score, value := horizontalDistance,
         angle := angle, description := getAnkleDescription score }

/-- `KendallAnalyzer.analyzeLateralView`: run the six evaluators in order and
average their scores (`reduce`-sum divided by `details.length`).  It performs
no validation of the landmark count. -/
noncomputable def analyzeLateralView (landmarks : List Landmark) :
    Option PostureReport := do
  let headPosture ← evaluateHeadPosture landmarks
  let shoulderPosition ← evaluateShoulderPosition landmarks
  let spinalAlignment ← evaluateSpinalAlignment landmarks
  let pelvicTilt ← evaluatePelvicTilt landmarks
  let kneePosition ← evaluateKneePosition landmarks
  let ankleAlignment ← evaluateAnkleAlignment landmarks
  let details := [headPosture, shoulderPosition, spinalAlignment,
                  pelvicTilt, kneePosition, ankleAlignment]
  let totalScore :=
    (details.foldl (fun sum item => sum + item.score) 0) / (details.length : ℝ)
  pure { totalScore := totalScore, details := details }

namespace UIC

/-- The `UIController.js` revision of `KendallAnalyzer.evaluateSpinalAlignment`:
angle from vertical via `atan2(|dx|, |dy|)`, tolerance 5, slope 10. -/
noncomputable def evaluateSpinalAlignment (landmarks : List Landmark) :
    Option CriterionResult := do
  let shoulder ← landmarks[LEFT_SHOULDER]?
  let hip ← landmarks[LEFT_HIP]?
  let horizontalDistance := |shoulder.x - hip.x|
  let verticalDistance := |shoulder.y - hip.y|
  let angle := atan2 horizontalDistance verticalDistance * (180 / Real.pi)
  let score := curveScore 5 10 angle
  pure { name := "脊柱アライメント", score := score, value := angle,
         angle := angle, description := getSpinalDescription score }

end UIC

/-- Landmark constructor used to build concrete test inputs (z and visibility
are unused by the scoring code). -/
def mkLm (x y : ℝ) : Landmark := ⟨x, y, 0, 1⟩

/-- Placeholder landmark for indices the lateral-view evaluators never read. -/
def z0 : Landmark := mkLm 0 0

/-- A full 33-entry landmark set in perfect Kendall alignment with the
anatomically standard orientation (image y grows downward, so the ear is
above the shoulder, the shoulder above the hip, the hip above the knee):
ear, shoulder, hip, knee and ankle all at x = 0.40. -/
def lmPerfect : List Landmark :=
  [z0, z0, z0, z0, z0, z0, z0, mkLm 0.40 0.10,
   z0, z0, z0, mkLm 0.40 0.30,
   z0, z0, z0, z0, z0, z0, z0, z0, z0, z0, z0, mkLm 0.40 0.60,
   z0, mkLm 0.40 0.80, z0, mkLm 0.40 0.95,
   z0, z0, z0, z0, z0]

/-- A 28-entry landmark set (indices 0–27 only): the same perfect alignment,
but five entries short of the 33 the spec requires. -/
def lm28 : List Landmark :=
  [z0, z0, z0, z0, z0, z0, z0, mkLm 0.40 0.10,
   z0, z0, z0, mkLm 0.40 0.30,
   z0, z0, z0, z0, z0, z0, z0, z0, z0, z0, z0, mkLm 0.40 0.60,
   z0, mkLm 0.40 0.80, z0, mkLm 0.40 0.95]

/-- Landmark set for the spec's spinal-alignment scenario:
shoulder = (0.40, 0.30), hip = (0.45, 0.60). -/
def lmSpinal : List Landmark :=
  [z0, z0, z0, z0, z0, z0, z0, z0,
   z0, z0, z0, mkLm 0.40 0.30,
   z0, z0, z0, z0, z0, z0, z0, z0, z0, z0, z0, mkLm 0.45 0.60]

/-- Landmark set with a perfectly vertical shoulder-hip segment, shoulder
above the hip in image coordinates: shoulder = (0.40, 0.30),
hip = (0.40, 0.60). -/
def lmVertical : List Landmark :=
  [z0, z0, z0, z0, z0, z0, z0, z0,
   z0, z0, z0, mkLm 0.40 0.30,
   z0, z0, z0, z0, z0, z0, z0, z0, z0, z0, z0, mkLm 0.40 0.60]

/-- Landmark set for the knee-at-threshold scenario: hip = (0.40, 0.60),
knee = (0.43, 0.80). -/
def lmKnee : List Landmark :=
  [z0, z0, z0, z0, z0, z0, z0, z0,
   z0, z0, z0, z0,
   z0, z0, z0, z0, z0, z0, z0, z0, z0, z0, z0, mkLm 0.40 0.60,
   z0, mkLm 0.43 0.80]

/-- Landmark set in which the shoulder and hip landmarks coincide:
both = (0.50, 0.50). -/
def lmCoincident : List Landmark :=
  [z0, z0, z0, z0, z0, z0, z0, z0,
   z0, z0, z0, mkLm 0.50 0.50,
   z0, z0, z0, z0, z0, z0, z0, z0, z0, z0, z0, mkLm 0.50 0.50]

/-! Basic facts about `atan2` and the scoring curve. -/

lemma atan2_pos_left {y : ℝ} (hy : 0 < y) : atan2 y 0 = Real.pi / 2 := by
  unfold atan2
  norm_num [hy]

lemma atan2_neg_left {y : ℝ} (hy : y < 0) : atan2 y 0 = -(Real.pi / 2) := by
  unfold atan2
  norm_num [hy, not_lt.mpr hy.le]

lemma atan2_zero_left {x : ℝ} (hx : 0 ≤ x) : atan2 0 x = 0 := by
  unfold atan2
  rcases lt_or_eq_of_le hx with h | h
  · simp [h, Real.arctan_zero]
  · simp [← h]

lemma atan2_neg_neg {y x : ℝ} (hy : y < 0) (hx : x < 0) :
    atan2 y x = Real.arctan (y / x) - Real.pi := by
  unfold atan2
  rw [if_neg (by linarith), if_pos hx, if_neg (by linarith)]

lemma half_pi_deg : Real.pi / 2 * (180 / Real.pi) = 90 := by
  have hπ : Real.pi ≠ 0 := Real.pi_ne_zero
  field_simp
  ring

lemma neg_half_pi_deg : -(Real.pi / 2) * (180 / Real.pi) = -90 := by
  rw [neg_mul, half_pi_deg]

lemma curveScore_of_le {T K m : ℝ} (h : m ≤ T) : curveScore T K m = 100 := by
  unfold curveScore
  rw [if_neg (not_lt.mpr h)]

lemma curveScore_eq_zero {T K m : ℝ} (hT : T < m) (h : 100 ≤ (m - T) * K) :
    curveScore T K m = 0 := by
  unfold curveScore
  rw [if_pos hT, max_eq_left (by linarith)]

lemma curveScore_nonneg (T K m : ℝ) : 0 ≤ curveScore T K m := by
  unfold curveScore
  split
  · exact le_max_left 0 _
  · norm_num

lemma curveScore_le_100 {T K : ℝ} (hK : 0 ≤ K) (m : ℝ) :
    curveScore T K m ≤ 100 := by
  unfold curveScore
  split
  · rename_i hTm
    have hm : 0 ≤ (m - T) * K := mul_nonneg (by linarith) hK
    rw [max_le_iff]
    constructor <;> linarith
  · exact le_refl 100

/-! Behaviour of the two spinal-alignment revisions on vertical segments. -/

lemma spinal_vertical_up {lm : List Landmark} {s h : Landmark}
    (hs : lm[LEFT_SHOULDER]? = some s) (hh : lm[LEFT_HIP]? = some h)
    (hx : s.x = h.x) (hy : s.y < h.y) :
    ∃ c, evaluateSpinalAlignment lm = some c ∧
      c.score = 0 ∧ c.value = 180 ∧ c.angle = -90 := by
  have hdx : s.x - h.x = 0 := by rw [hx]; ring
  have hdy : s.y - h.y < 0 := by linarith
  have hang : atan2 (s.y - h.y) (s.x - h.x) * (180 / Real.pi) = -90 := by
    rw [hdx, atan2_neg_left hdy, neg_half_pi_deg]
  have hval : |atan2 (s.y - h.y) (s.x - h.x) * (180 / Real.pi) - 90| = 180 := by
    rw [hang]; norm_num
  have hsc : curveScore 5 3
      |atan2 (s.y - h.y) (s.x - h.x) * (180 / Real.pi) - 90| = 0 := by
    rw [hval]; exact curveScore_eq_zero (by norm_num) (by norm_num)
  have heq : evaluateSpinalAlignment lm = some
      { name := "脊柱アライメント",
        score := curveScore 5 3
          |atan2 (s.y - h.y) (s.x - h.x) * (180 / Real.pi) - 90|,
        value := |atan2 (s.y - h.y) (s.x - h.x) * (180 / Real.pi) - 90|,
        angle := atan2 (s.y - h.y) (s.x - h.x) * (180 / Real.pi),
        description := getSpinalDescription (curveScore 5 3
          |atan2 (s.y - h.y) (s.x - h.x) * (180 / Real.pi) - 90|) } := by
    simp only [evaluateSpinalAlignment, hs, hh, Option.bind_eq_bind,
      Option.some_bind]
    rfl
  exact ⟨_, heq, hsc, hval, hang⟩

lemma pelvic_vertical_down {lm : List Landmark} {h k : Landmark}
    (hh : lm[LEFT_HIP]? = some h) (hk : lm[LEFT_KNEE]? = some k)
    (hx : k.x = h.x) (hy : h.y < k.y) :
    ∃ c, evaluatePelvicTilt lm = some c ∧ c.score = 100 := by
  have hdx : k.x - h.x = 0 := by rw [hx]; ring
  have hdy : 0 < k.y - h.y := by linarith
  have hang : atan2 (k.y - h.y) (k.x - h.x) * (180 / Real.pi) = 90 := by
    rw [hdx, atan2_pos_left hdy, half_pi_deg]
  have hval : |atan2 (k.y - h.y) (k.x - h.x) * (180 / Real.pi) - 90| = 0 := by
    rw [hang]; norm_num
  have hsc : curveScore 5 3
      |atan2 (k.y - h.y) (k.x - h.x) * (180 / Real.pi) - 90| = 100 := by
    rw [hval]; exact curveScore_of_le (by norm_num)
  have heq : evaluatePelvicTilt lm = some
      { name := "骨盤傾斜",
        score := curveScore 5 3
          |atan2 (k.y - h.y) (k.x - h.x) * (180 / Real.pi) - 90|,
        value := |atan2 (k.y - h.y) (k.x - h.x) * (180 / Real.pi) - 90|,
        angle := atan2 (k.y - h.y) (k.x - h.x) * (180 / Real.pi),
        description := getPelvicDescription (curveScore 5 3
          |atan2 (k.y - h.y) (k.x - h.x) * (180 / Real.pi) - 90|) } := by
    simp only [evaluatePelvicTilt, hh, hk, Option.bind_eq_bind,
      Option.some_bind]
    rfl
  exact ⟨_, heq, hsc⟩

lemma uic_spinal_vertical {lm : List Landmark} {s h : Landmark}
    (hs : lm[LEFT_SHOULDER]? = some s) (hh : lm[LEFT_HIP]? = some h)
    (hx : s.x = h.x) :
    ∃ c, UIC.evaluateSpinalAlignment lm = some c ∧
      c.score = 100 ∧ c.angle = 0 := by
  have hdx : |s.x - h.x| = 0 := by rw [hx]; simp
  have hang : atan2 |s.x - h.x| |s.y - h.y| * (180 / Real.pi) = 0 := by
    rw [hdx, atan2_zero_left (abs_nonneg _), zero_mul]
  have hsc : curveScore 5 10 (atan2 |s.x - h.x| |s.y - h.y| * (180 / Real.pi))
      = 100 := by
    rw [hang]; exact curveScore_of_le (by norm_num)
  have heq : UIC.evaluateSpinalAlignment lm = some
      { name := "脊柱アライメント",
        score := curveScore 5 10 (atan2 |s.x - h.x| |s.y - h.y| * (180 / Real.pi)),
        value := atan2 |s.x - h.x| |s.y - h.y| * (180 / Real.pi),
        angle := atan2 |s.x - h.x| |s.y - h.y| * (180 / Real.pi),
        description := getSpinalDescription (curveScore 5 10
          (atan2 |s.x - h.x| |s.y - h.y| * (180 / Real.pi))) } := by
    simp only [UIC.evaluateSpinalAlignment, hs, hh, Option.bind_eq_bind,
      Option.some_bind]
    rfl
  exact ⟨_, heq, hsc, hang⟩

/-! Evaluation of the six criteria on the perfect-posture landmark set. -/

lemma head_lmPerfect : ∃ c, evaluateHeadPosture lmPerfect = some c ∧
    c.score = 100 := by
  refine ⟨_, rfl, ?_⟩
  show curveScore 0.03 2000 |(0.40 : ℝ) - 0.40| = 100
  rw [show |(0.40 : ℝ) - 0.40| = 0 by norm_num]
  exact curveScore_of_le (by norm_num)

lemma shoulder_lmPerfect : ∃ c, evaluateShoulderPosition lmPerfect = some c ∧
    c.score = 100 := by
  refine ⟨_, rfl, ?_⟩
  show curveScore 0.02 2500 |(0.40 : ℝ) - ((0.40 : ℝ) + 0.40) / 2| = 100
  rw [show |(0.40 : ℝ) - ((0.40 : ℝ) + 0.40) / 2| = 0 by norm_num]
  exact curveScore_of_le (by norm_num)

lemma spinal_lmPerfect : ∃ c, evaluateSpinalAlignment lmPerfect = some c ∧
    c.score = 0 := by
  obtain ⟨c, hc, h1, -, -⟩ :=
    spinal_vertical_up
      (rfl : lmPerfect[LEFT_SHOULDER]? = some (mkLm 0.40 0.30))
      (rfl : lmPerfect[LEFT_HIP]? = some (mkLm 0.40 0.60))
      rfl (by show (0.30 : ℝ) < 0.60; norm_num)
  exact ⟨c, hc, h1⟩

lemma pelvic_lmPerfect : ∃ c, evaluatePelvicTilt lmPerfect = some c ∧
    c.score = 100 := by
  exact pelvic_vertical_down
    (rfl : lmPerfect[LEFT_HIP]? = some (mkLm 0.40 0.60))
    (rfl : lmPerfect[LEFT_KNEE]? = some (mkLm 0.40 0.80))
    rfl (by show (0.60 : ℝ) < 0.80; norm_num)

lemma knee_lmPerfect : ∃ c, evaluateKneePosition lmPerfect = some c ∧
    c.score = 100 := by
  refine ⟨_, rfl, ?_⟩
  show curveScore 0.03 2000 |(0.40 : ℝ) - 0.40| = 100
  rw [show |(0.40 : ℝ) - 0.40| = 0 by norm_num]
  exact curveScore_of_le (by norm_num)

lemma ankle_lmPerfect : ∃ c, evaluateAnkleAlignment lmPerfect = some c ∧
    c.score = 100 := by
  refine ⟨_, rfl, ?_⟩
  show curveScore 0.03 2000 |(0.40 : ℝ) - 0.40| = 100
  rw [show |(0.40 : ℝ) - 0.40| = 0 by norm_num]
  exact curveScore_of_le (by norm_num)

/-- C1: the spec expects the perfect-posture landmark set (all five points at
x = 0.40, both segment pairs perfectly vertical, in the anatomically standard
orientation) to receive six scores of 100 and totalScore 100.  The code
instead scores the spinal-alignment criterion 0 on this very input — its
`|atan2(dy,dx)·180/π − 90|` form yields 180° for a vertical segment whose
upper point is listed first — so the report is
`[100, 100, 0, 100, 100, 100]` with totalScore 500/6 ≈ 83.3. -/
theorem C1_perfect_posture_code_eval :
    ∃ r, analyzeLateralView lmPerfect = some r ∧
      r.details.map CriterionResult.score = [100, 100, 0, 100, 100, 100] ∧
      r.totalScore = 500 / 6 := by
  obtain ⟨c1, h1, s1⟩ := head_lmPerfect
  obtain ⟨c2, h2, s2⟩ := shoulder_lmPerfect
  obtain ⟨c3, h3, s3⟩ := spinal_lmPerfect
  obtain ⟨c4, h4, s4⟩ := pelvic_lmPerfect
  obtain ⟨c5, h5, s5⟩ := knee_lmPerfect
  obtain ⟨c6, h6, s6⟩ := ankle_lmPerfect
  have hA : analyzeLateralView lmPerfect = some
      { totalScore := (0 + c1.score + c2.score + c3.score + c4.score +
          c5.score + c6.score) / ((6 : ℕ) : ℝ),
        details := [c1, c2, c3, c4, c5, c6] } := by
    simp only [analyzeLateralView, h1, h2, h3, h4, h5, h6,
      Option.bind_eq_bind, Option.some_bind]
    rfl
  refine ⟨_, hA, ?_, ?_⟩
  · simp only [List.map_cons, List.map_nil, s1, s2, s3, s4, s5, s6]
  · show (0 + c1.score + c2.score + c3.score + c4.score + c5.score +
      c6.score) / ((6 : ℕ) : ℝ) = 500 / 6
    rw [s1, s2, s3, s4, s5, s6]
    norm_num

/-- C2: on shoulder = (0.40, 0.30), hip = (0.45, 0.60) the spec expects
`angleDifference ≈ 9.46°` and `score ≈ 86.6`.  The code computes the
directional angle ≈ −99.46° and `angleDifference = |−99.46 − 90| ≈ 189.46°`
(strictly between 180° and 270°), and the score floors at exactly 0. -/
theorem C2_spinal_scenario_code_eval :
    ∃ c, evaluateSpinalAlignment lmSpinal = some c ∧
      180 < c.value ∧ c.value < 270 ∧ c.score = 0 := by
  have hy : ((0.30 : ℝ) - 0.60) < 0 := by norm_num
  have hx : ((0.40 : ℝ) - 0.45) < 0 := by norm_num
  have hat : atan2 ((0.30 : ℝ) - 0.60) ((0.40 : ℝ) - 0.45)
      = Real.arctan 6 - Real.pi := by
    rw [atan2_neg_neg hy hx,
      show ((0.30 : ℝ) - 0.60) / ((0.40 : ℝ) - 0.45) = 6 by norm_num]
  have hπ : 0 < Real.pi := Real.pi_pos
  have ha0 : 0 < Real.arctan 6 := by
    have h := Real.arctan_strictMono (show (0 : ℝ) < 6 by norm_num)
    rwa [Real.arctan_zero] at h
  have ha2 : Real.arctan 6 < Real.pi / 2 := Real.arctan_lt_pi_div_two 6
  have hmul : (Real.arctan 6 - Real.pi) * (180 / Real.pi)
      = Real.arctan 6 * (180 / Real.pi) - 180 := by
    field_simp
    ring
  have hapos : 0 < Real.arctan 6 * (180 / Real.pi) :=
    mul_pos ha0 (by positivity)
  have hlt90 : Real.arctan 6 * (180 / Real.pi) < 90 := by
    have h2 : Real.arctan 6 * (180 / Real.pi)
        < Real.pi / 2 * (180 / Real.pi) :=
      mul_lt_mul_of_pos_right ha2 (by positivity)
    rwa [half_pi_deg] at h2
  have hlo : -180 < (Real.arctan 6 - Real.pi) * (180 / Real.pi) := by
    rw [hmul]; linarith
  have hhi : (Real.arctan 6 - Real.pi) * (180 / Real.pi) < -90 := by
    rw [hmul]; linarith
  have hval : |atan2 ((0.30 : ℝ) - 0.60) ((0.40 : ℝ) - 0.45)
      * (180 / Real.pi) - 90|
      = 90 - (Real.arctan 6 - Real.pi) * (180 / Real.pi) := by
    rw [hat, abs_of_neg (by linarith :
      (Real.arctan 6 - Real.pi) * (180 / Real.pi) - 90 < 0)]
    ring
  refine ⟨_, rfl, ?_, ?_, ?_⟩
  · show 180 < |atan2 ((0.30 : ℝ) - 0.60) ((0.40 : ℝ) - 0.45)
      * (180 / Real.pi) - 90|
    rw [hval]; linarith
  · show |atan2 ((0.30 : ℝ) - 0.60) ((0.40 : ℝ) - 0.45)
      * (180 / Real.pi) - 90| < 270
    rw [hval]; linarith
  · show curveScore 5 3 |atan2 ((0.30 : ℝ) - 0.60) ((0.40 : ℝ) - 0.45)
      * (180 / Real.pi) - 90| = 0
    rw [hval]
    exact curveScore_eq_zero (by linarith) (by linarith)

/-- C9: when the two points given to the UIController vertical-deviation
computation coincide, the evaluator still returns a result (no error of any
kind is modelled as raised), the angle is exactly 0°, and the score is 100. -/
theorem C9_coincident_points_defined :
    ∀ (lm : List Landmark) (s h : Landmark),
      lm[LEFT_SHOULDER]? = some s → lm[LEFT_HIP]? = some h →
      s.x = h.x → s.y = h.y →
      ∃ c, UIC.evaluateSpinalAlignment lm = some c ∧
        c.angle = 0 ∧ c.score = 100 := by
  intro lm s h hs hh hx _
  obtain ⟨c, hc, h100, h0⟩ := uic_spinal_vertical hs hh hx
  exact ⟨c, hc, h0, h100⟩

/-- Witness for C9 at a concrete landmark set whose shoulder and hip both sit
at (0.50, 0.50). -/
theorem C9_witness :
    ∃ c, UIC.evaluateSpinalAlignment lmCoincident = some c ∧
      c.angle = 0 ∧ c.score = 100 :=
  C9_coincident_points_defined lmCoincident (mkLm 0.50 0.50) (mkLm 0.50 0.50)
    rfl rfl rfl rfl

/-- C10: the two source revisions of the spinal-alignment evaluator diverge
on a perfectly vertical shoulder-to-hip segment with the shoulder above the
hip (equal x, shoulder.y < hip.y): the canonical `KendallAnalyzer` revision
scores it 0 while the `UIController.js` revision scores it 100. -/
theorem C10_spinal_revisions_not_equivalent :
    ∃ a b, evaluateSpinalAlignment lmVertical = some a ∧
      UIC.evaluateSpinalAlignment lmVertical = some b ∧
      a.score = 0 ∧ b.score = 100 := by
  obtain ⟨a, ha, ha0, -, -⟩ :=
    spinal_vertical_up
      (rfl : lmVertical[LEFT_SHOULDER]? = some (mkLm 0.40 0.30))
      (rfl : lmVertical[LEFT_HIP]? = some (mkLm 0.40 0.60))
      rfl (by show (0.30 : ℝ) < 0.60; norm_num)
  obtain ⟨b, hb, hb100, -⟩ :=
    uic_spinal_vertical
      (rfl : lmVertical[LEFT_SHOULDER]? = some (mkLm 0.40 0.30))
      (rfl : lmVertical[LEFT_HIP]? = some (mkLm 0.40 0.60))
      rfl
  exact ⟨a, b, ha, hb, ha0, hb100⟩

/-! Landmark-count behaviour of `analyzeLateralView`. -/

lemma analyze_isSome_length {lm : List Landmark}
    (hS : (analyzeLateralView lm).isSome = true) : 28 ≤ lm.length := by
  obtain ⟨r, hr⟩ := Option.isSome_iff_exists.mp hS
  simp only [analyzeLateralView, Option.bind_eq_bind, Option.bind_eq_some] at hr
  obtain ⟨c1, -, c2, -, c3, -, c4, -, c5, -, c6, h6, -⟩ := hr
  simp only [evaluateAnkleAlignment, LEFT_KNEE, LEFT_ANKLE,
    Option.bind_eq_bind, Option.bind_eq_some] at h6
  obtain ⟨knee, -, ankle, h27, -⟩ := h6
  have h := (List.getElem?_eq_some_iff.mp h27).1
  omega

lemma analyze_isSome_of_length {lm : List Landmark} (h : 28 ≤ lm.length) :
    (analyzeLateralView lm).isSome = true := by
  have h7 := List.getElem?_eq_getElem (show 7 < lm.length by omega)
  have h11 := List.getElem?_eq_getElem (show 11 < lm.length by omega)
  have h23 := List.getElem?_eq_getElem (show 23 < lm.length by omega)
  have h25 := List.getElem?_eq_getElem (show 25 < lm.length by omega)
  have h27 := List.getElem?_eq_getElem (show 27 < lm.length by omega)
  simp only [analyzeLateralView, evaluateHeadPosture, evaluateShoulderPosition,
    evaluateSpinalAlignment, evaluatePelvicTilt, evaluateKneePosition,
    evaluateAnkleAlignment, LEFT_EAR, LEFT_SHOULDER, LEFT_HIP, LEFT_KNEE,
    LEFT_ANKLE, h7, h11, h23, h25, h27, Option.bind_eq_bind, Option.some_bind,
    Option.pure_def, Option.isSome_some]

/-- C3 counterexample: a 28-entry landmark set has fewer than 33 entries, yet
`analyzeLateralView` raises nothing and produces a full report — the code
performs no cardinality validation and no `MissingLandmarkError` exists. -/
theorem C3_counterexample_short_set_scores :
    lm28.length < 33 ∧ (analyzeLateralView lm28).isSome = true := by
  constructor
  · show (28 : ℕ) < 33
    norm_num
  · exact analyze_isSome_of_length (le_refl 28)

/-- C3 amended: `analyzeLateralView` performs no 33-entry validation; it
produces a report exactly when every index it reads (the largest being
LEFT_ANKLE = 27) is present, i.e. when the landmark list has at least 28
entries, and fails (modelled `none`, the JS undefined-property TypeError)
exactly when it has fewer. -/
theorem C3_no_cardinality_validation (lm : List Landmark) :
    (analyzeLateralView lm).isSome = true ↔ 28 ≤ lm.length :=
  ⟨analyze_isSome_length, analyze_isSome_of_length⟩

/-- C4: whenever `analyzeLateralView` produces a report, its `totalScore`
is exactly the sum of the six criterion scores divided by 6 (exact real
equality, hence within any floating-point tolerance). -/
theorem C4_totalScore_is_mean :
    ∀ (lm : List Landmark) (r : PostureReport), analyzeLateralView lm = some r →
      ∃ a b c d e f, r.details = [a, b, c, d, e, f] ∧
        r.totalScore =
          (a.score + b.score + c.score + d.score + e.score + f.score) / 6 := by
  intro lm r hr
  simp only [analyzeLateralView, Option.bind_eq_bind, Option.bind_eq_some] at hr
  obtain ⟨c1, -, c2, -, c3, -, c4, -, c5, -, c6, -, hp⟩ := hr
  simp only [Option.pure_def, Option.some.injEq] at hp
  subst hp
  refine ⟨c1, c2, c3, c4, c5, c6, rfl, ?_⟩
  show (List.foldl (fun sum item => sum + item.score) 0
      [c1, c2, c3, c4, c5, c6]) /
      (([c1, c2, c3, c4, c5, c6].length : ℕ) : ℝ) =
    (c1.score + c2.score + c3.score + c4.score + c5.score + c6.score) / 6
  simp only [List.foldl, List.length_cons, List.length_nil]
  norm_num

/-- Witness for C4 at the perfect-posture landmark set. -/
theorem C4_witness :
    ∃ r, analyzeLateralView lmPerfect = some r ∧
      ∃ a b c d e f, r.details = [a, b, c, d, e, f] ∧
        r.totalScore =
          (a.score + b.score + c.score + d.score + e.score + f.score) / 6 := by
  have hs : (analyzeLateralView lmPerfect).isSome = true :=
    analyze_isSome_of_length (by norm_num [lmPerfect])
  exact ⟨(analyzeLateralView lmPerfect).get hs, (Option.some_get hs).symm,
    C4_totalScore_is_mean lmPerfect _ (Option.some_get hs).symm⟩

/-- C5: for the distance-threshold criteria (head posture, shoulder position,
knee position, ankle alignment — each scoring through `curveScore` with its
threshold and slope), a metric at or below the threshold yields exactly 100;
in particular hip.x = 0.40, knee.x = 0.43 gives metric 0.03 = T and knee
score 100. -/
theorem C5_threshold_saturation :
    (∀ T K m : ℝ, m ≤ T → curveScore T K m = 100) ∧
    (∀ lm (r : CriterionResult), evaluateHeadPosture lm = some r →
      r.score = curveScore 0.03 2000 r.value) ∧
    (∀ lm (r : CriterionResult), evaluateShoulderPosition lm = some r →
      r.score = curveScore 0.02 2500 r.value) ∧
    (∀ lm (r : CriterionResult), evaluateKneePosition lm = some r →
      r.score = curveScore 0.03 2000 r.value) ∧
    (∀ lm (r : CriterionResult), evaluateAnkleAlignment lm = some r →
      r.score = curveScore 0.03 2000 r.value) ∧
    (∃ r, evaluateKneePosition lmKnee = some r ∧
      r.value = 0.03 ∧ r.score = 100) := by
  refine ⟨fun T K m h => curveScore_of_le h, ?_, ?_, ?_, ?_, ?_⟩
  · intro lm r h
    simp only [evaluateHeadPosture, Option.bind_eq_bind,
      Option.bind_eq_some] at h
    obtain ⟨e, -, s, -, hp⟩ := h
    simp only [Option.pure_def, Option.some.injEq] at hp
    subst hp
    rfl
  · intro lm r h
    simp only [evaluateShoulderPosition, Option.bind_eq_bind,
      Option.bind_eq_some] at h
    obtain ⟨e, -, s, -, o, -, hp⟩ := h
    simp only [Option.pure_def, Option.some.injEq] at hp
    subst hp
    rfl
  · intro lm r h
    simp only [evaluateKneePosition, Option.bind_eq_bind,
      Option.bind_eq_some] at h
    obtain ⟨e, -, s, -, hp⟩ := h
    simp only [Option.pure_def, Option.some.injEq] at hp
    subst hp
    rfl
  · intro lm r h
    simp only [evaluateAnkleAlignment, Option.bind_eq_bind,
      Option.bind_eq_some] at h
    obtain ⟨e, -, s, -, hp⟩ := h
    simp only [Option.pure_def, Option.some.injEq] at hp
    subst hp
    rfl
  · have hv : |(0.43 : ℝ) - 0.40| = 0.03 := by
      rw [show (0.43 : ℝ) - 0.40 = 0.03 by norm_num]
      exact abs_of_nonneg (by norm_num)
    refine ⟨_, rfl, ?_, ?_⟩
    · exact hv
    · show curveScore 0.03 2000 |(0.43 : ℝ) - 0.40| = 100
      rw [hv]
      exact curveScore_of_le (le_refl _)

/-- Witness for C5: a metric strictly inside the threshold scores 100, and
the concrete knee evaluation factors through the shared curve. -/
theorem C5_witness :
    curveScore 0.03 2000 0.02 = 100 ∧
    ∃ r, evaluateKneePosition lmKnee = some r ∧
      r.score = curveScore 0.03 2000 r.value := by
  refine ⟨C5_threshold_saturation.1 0.03 2000 0.02 (by norm_num),
    ⟨_, rfl, ?_⟩⟩
  exact C5_threshold_saturation.2.2.2.1 lmKnee _ rfl

/-- C6: beyond the threshold the distance-threshold curve is strictly
decreasing until it floors, and it never goes below 0; the head-posture
evaluator (and likewise the other distance criteria) scores through exactly
this curve. -/
theorem C6_strictly_decreasing_beyond_threshold :
    (∀ T K m1 m2 : ℝ, 0 < K → T < m1 → m1 < m2 → 0 < curveScore T K m1 →
      curveScore T K m2 < curveScore T K m1) ∧
    (∀ T K m : ℝ, 0 ≤ curveScore T K m) ∧
    (∀ lm (r : CriterionResult), evaluateHeadPosture lm = some r →
      r.score = curveScore 0.03 2000 r.value) := by
  refine ⟨?_, fun T K m => curveScore_nonneg T K m, ?_⟩
  · intro T K m1 m2 hK h1 h12 hpos
    unfold curveScore at hpos ⊢
    rw [if_pos h1] at hpos ⊢
    rw [if_pos (lt_trans h1 h12)]
    have hv1 : 0 < 100 - (m1 - T) * K := by
      by_contra hle
      push_neg at hle
      rw [max_eq_left hle] at hpos
      exact lt_irrefl 0 hpos
    rw [max_eq_right hv1.le]
    have hlt : 100 - (m2 - T) * K < 100 - (m1 - T) * K := by
      nlinarith [mul_pos (sub_pos.mpr h12) hK]
    exact max_lt_iff.mpr ⟨hv1, hlt⟩
  · intro lm r h
    simp only [evaluateHeadPosture, Option.bind_eq_bind,
      Option.bind_eq_some] at h
    obtain ⟨e, -, s, -, hp⟩ := h
    simp only [Option.pure_def, Option.some.injEq] at hp
    subst hp
    rfl

/-- Witness for C6: metrics 0.05 and 0.06 beyond threshold 0.03 at slope
2000 give strictly decreasing scores (60 and 40). -/
theorem C6_witness :
    curveScore 0.03 2000 0.06 < curveScore 0.03 2000 0.05 := by
  apply C6_strictly_decreasing_beyond_threshold.1 0.03 2000 0.05 0.06
    (by norm_num) (by norm_num) (by norm_num)
  unfold curveScore
  rw [if_pos (by norm_num : (0.03 : ℝ) < 0.05),
    show (100 : ℝ) - (0.05 - 0.03) * 2000 = 60 by norm_num,
    max_eq_right (by norm_num : (0 : ℝ) ≤ 60)]
  norm_num

/-- C7: the score-to-tier mapping is criterion-independent with exact
boundaries (90 → Excellent, 89.999 → Good, 70 → Good, [50,70) → Caution,
49.999 → Poor), and every criterion's description function factors through
it via a fixed per-(criterion, tier) string table. -/
theorem C7_tier_boundaries_and_tables :
    tierOf 90 = Tier.Excellent ∧ tierOf 89.999 = Tier.Good ∧
    tierOf 70 = Tier.Good ∧
    (∀ s : ℝ, 50 ≤ s → s < 70 → tierOf s = Tier.Caution) ∧
    tierOf 49.999 = Tier.Poor ∧
    (∀ s : ℝ, getHeadPostureDescription s = headDesc (tierOf s)) ∧
    (∀ s : ℝ, getShoulderDescription s = shoulderDesc (tierOf s)) ∧
    (∀ s : ℝ, getSpinalDescription s = spinalDesc (tierOf s)) ∧
    (∀ s : ℝ, getPelvicDescription s = pelvicDesc (tierOf s)) ∧
    (∀ s : ℝ, getKneeDescription s = kneeDesc (tierOf s)) ∧
    (∀ s : ℝ, getAnkleDescription s = ankleDesc (tierOf s)) := by
  refine ⟨?_, ?_, ?_, ?_, ?_, ?_, ?_, ?_, ?_, ?_, ?_⟩
  · unfold tierOf
    rw [if_pos (by norm_num)]
  · unfold tierOf
    rw [if_neg (by norm_num), if_pos (by norm_num)]
  · unfold tierOf
    rw [if_neg (by norm_num), if_pos (by norm_num)]
  · intro s h1 h2
    unfold tierOf
    rw [if_neg (by linarith), if_neg (by linarith), if_pos h1]
  · unfold tierOf
    rw [if_neg (by norm_num), if_neg (by norm_num), if_neg (by norm_num)]
  · intro s
    unfold getHeadPostureDescription headDesc tierOf
    split_ifs <;> rfl
  · intro s
    unfold getShoulderDescription shoulderDesc tierOf
    split_ifs <;> rfl
  · intro s
    unfold getSpinalDescription spinalDesc tierOf
    split_ifs <;> rfl
  · intro s
    unfold getPelvicDescription pelvicDesc tierOf
    split_ifs <;> rfl
  · intro s
    unfold getKneeDescription kneeDesc tierOf
    split_ifs <;> rfl
  · intro s
    unfold getAnkleDescription ankleDesc tierOf
    split_ifs <;> rfl

/-- Witness for C7 at the concrete score 55, which lies in [50, 70). -/
theorem C7_witness : tierOf 55 = Tier.Caution :=
  C7_tier_boundaries_and_tables.2.2.2.1 55 (by norm_num) (by norm_num)

/-- C8: every criterion evaluator that returns a result returns a score in
[0, 100]: each score is a `curveScore`, which saturates at 100 and is
floored at 0 by `max`. -/
theorem C8_scores_clamped :
    ∀ (lm : List Landmark) (r : CriterionResult),
      (evaluateHeadPosture lm = some r → 0 ≤ r.score ∧ r.score ≤ 100) ∧
      (evaluateShoulderPosition lm = some r → 0 ≤ r.score ∧ r.score ≤ 100) ∧
      (evaluateSpinalAlignment lm = some r → 0 ≤ r.score ∧ r.score ≤ 100) ∧
      (evaluatePelvicTilt lm = some r → 0 ≤ r.score ∧ r.score ≤ 100) ∧
      (evaluateKneePosition lm = some r → 0 ≤ r.score ∧ r.score ≤ 100) ∧
      (evaluateAnkleAlignment lm = some r → 0 ≤ r.score ∧ r.score ≤ 100) := by
  intro lm r
  refine ⟨?_, ?_, ?_, ?_, ?_, ?_⟩
  · intro h
    simp only [evaluateHeadPosture, Option.bind_eq_bind,
      Option.bind_eq_some] at h
    obtain ⟨e, -, s, -, hp⟩ := h
    simp only [Option.pure_def, Option.some.injEq] at hp
    subst hp
    exact ⟨curveScore_nonneg _ _ _, curveScore_le_100 (by norm_num) _⟩
  · intro h
    simp only [evaluateShoulderPosition, Option.bind_eq_bind,
      Option.bind_eq_some] at h
    obtain ⟨e, -, s, -, o, -, hp⟩ := h
    simp only [Option.pure_def, Option.some.injEq] at hp
    subst hp
    exact ⟨curveScore_nonneg _ _ _, curveScore_le_100 (by norm_num) _⟩
  · intro h
    simp only [evaluateSpinalAlignment, Option.bind_eq_bind,
      Option.bind_eq_some] at h
    obtain ⟨e, -, s, -, hp⟩ := h
    simp only [Option.pure_def, Option.some.injEq] at hp
    subst hp
    exact ⟨curveScore_nonneg _ _ _, curveScore_le_100 (by norm_num) _⟩
  · intro h
    simp only [evaluatePelvicTilt, Option.bind_eq_bind,
      Option.bind_eq_some] at h
    obtain ⟨e, -, s, -, hp⟩ := h
    simp only [Option.pure_def, Option.some.injEq] at hp
    subst hp
    exact ⟨curveScore_nonneg _ _ _, curveScore_le_100 (by norm_num) _⟩
  · intro h
    simp only [evaluateKneePosition, Option.bind_eq_bind,
      Option.bind_eq_some] at h
    obtain ⟨e, -, s, -, hp⟩ := h
    simp only [Option.pure_def, Option.some.injEq] at hp
    subst hp
    exact ⟨curveScore_nonneg _ _ _, curveScore_le_100 (by norm_num) _⟩
  · intro h
    simp only [evaluateAnkleAlignment, Option.bind_eq_bind,
      Option.bind_eq_some] at h
    obtain ⟨e, -, s, -, hp⟩ := h
    simp only [Option.pure_def, Option.some.injEq] at hp
    subst hp
    exact ⟨curveScore_nonneg _ _ _, curveScore_le_100 (by norm_num) _⟩

/-- Witness for C8: all six evaluators on the perfect-posture landmark set
return scores in [0, 100]. -/
theorem C8_witness :
    ∃ r1 r2 r3 r4 r5 r6 : CriterionResult,
      (evaluateHeadPosture lmPerfect = some r1 ∧
        0 ≤ r1.score ∧ r1.score ≤ 100) ∧
      (evaluateShoulderPosition lmPerfect = some r2 ∧
        0 ≤ r2.score ∧ r2.score ≤ 100) ∧
      (evaluateSpinalAlignment lmPerfect = some r3 ∧
        0 ≤ r3.score ∧ r3.score ≤ 100) ∧
      (evaluatePelvicTilt lmPerfect = some r4 ∧
        0 ≤ r4.score ∧ r4.score ≤ 100) ∧
      (evaluateKneePosition lmPerfect = some r5 ∧
        0 ≤ r5.score ∧ r5.score ≤ 100) ∧
      (evaluateAnkleAlignment lmPerfect = some r6 ∧
        0 ≤ r6.score ∧ r6.score ≤ 100) := by
  refine ⟨_, _, _, _, _, _,
    ⟨rfl, (C8_scores_clamped lmPerfect _).1 rfl⟩,
    ⟨rfl, (C8_scores_clamped lmPerfect _).2.1 rfl⟩,
    ⟨rfl, (C8_scores_clamped lmPerfect _).2.2.1 rfl⟩,
    ⟨rfl, (C8_scores_clamped lmPerfect _).2.2.2.1 rfl⟩,
    ⟨rfl, (C8_scores_clamped lmPerfect _).2.2.2.2.1 rfl⟩,
    ⟨rfl, (C8_scores_clamped lmPerfect _).2.2.2.2.2 rfl⟩⟩

end Kendall
